import Mathlib

/-!
Shallow embedding of `src/components/CityMap.tsx`: a single React component
rendering a MapLibre map of Paris with category-filterable POI markers.

The component's instance state (refs and `useState` hooks) is modelled as an
explicit `ComponentState` record; each event handler / effect of the source
becomes a state-transition function.  Marker handles are modelled by the
observable data the source attaches to them (coordinates, element styling,
popup HTML, click-handler anchor).
-/

namespace CityMap

set_option maxRecDepth 10000

/-- POI categories, from `type POICategory` in the source. -/
inductive POICategory where
  | all | landmarks | food | art | history | culture
deriving DecidableEq, Repr

open POICategory

/-- The TypeScript string value of a category (used in the popup HTML,
where the template interpolates the raw category string). -/
def POICategory.str : POICategory → String
  | .all => "all"
  | .landmarks => "landmarks"
  | .food => "food"
  | .art => "art"
  | .history => "history"
  | .culture => "culture"

/-- The `interface POI` of the source.  Coordinates are `[lng, lat]`.
Every coordinate literal in the source has exactly four decimal places, so
coordinates are represented exactly as integers in units of 10⁻⁴ degrees
(e.g. the source's `2.2945` is `22945`). -/
structure POI where
  id : String
  name : String
  category : POICategory
  coordinates : Int × Int
  description : String
deriving DecidableEq, Repr

/-- The constant `PARIS_POIS` from the source (the seeded dataset of 8 POIs). -/
def PARIS_POIS : List POI := [
  { id := "1", name := "Eiffel Tower", category := .landmarks,
    coordinates := (22945, 488584),
    description := "Iconic iron lattice tower and symbol of Paris" },
  { id := "2", name := "Louvre Museum", category := .art,
    coordinates := (23376, 488606),
    description := "World\x27s largest art museum and historic monument" },
  { id := "3", name := "Notre-Dame Cathedral", category := .history,
    coordinates := (23499, 488530),
    description := "Medieval Catholic cathedral and Gothic architecture masterpiece" },
  { id := "4", name := "Sacré-Cœur Basilica", category := .culture,
    coordinates := (23431, 488867),
    description := "Roman Catholic church and minor basilica in Montmartre" },
  { id := "5", name := "Le Comptoir du Relais", category := .food,
    coordinates := (23387, 488532),
    description := "Traditional French bistro in Saint-Germain" },
  { id := "6", name := "Arc de Triomphe", category := .landmarks,
    coordinates := (22950, 488738),
    description := "Monumental arch honoring fallen French soldiers" },
  { id := "7", name := "Musée d\x27Orsay", category := .art,
    coordinates := (23266, 488600),
    description := "Museum housing world\x27s finest collection of Impressionist art" },
  { id := "8", name := "L\x27As du Fallafel", category := .food,
    coordinates := (23590, 488575),
    description := "Famous falafel restaurant in the Marais district" }
]

/-- One entry of the `CATEGORIES` array in the source. -/
structure CategoryEntry where
  id : POICategory
  label : String
  icon : String
deriving DecidableEq, Repr

/-- The array `CATEGORIES` from the source, in source order. -/
def CATEGORIES : List CategoryEntry := [
  { id := .all, label := "All", icon := "🗺️" },
  { id := .landmarks, label := "Landmarks", icon := "🏛️" },
  { id := .food, label := "Food", icon := "🍽️" },
  { id := .art, label := "Art", icon := "🎨" },
  { id := .history, label := "History", icon := "⛪" },
  { id := .culture, label := "Culture", icon := "🎭" }
]

/-- Function `getCategoryColor` from the source. -/
def getCategoryColor : POICategory → String
  | .landmarks => "#FF6B6B"
  | .food => "#4ECDC4"
  | .art => "#45B7D1"
  | .history => "#96CEB4"
  | .culture => "#FECA57"
  | .all => "#6C5CE7"

/-- Function `getCategoryIcon` from the source. -/
def getCategoryIcon : POICategory → String
  | .landmarks => "🏛️"
  | .food => "🍽️"
  | .art => "🎨"
  | .history => "⛪"
  | .culture => "🎭"
  | .all => "📍"

/-- The observable content of the DOM element built by `createMarkerElement`:
its `background-color` is `getCategoryColor(poi.category)` and its
`innerHTML` is `getCategoryIcon(poi.category)`. -/
structure MarkerElement where
  backgroundColor : String
  innerHTML : String
deriving DecidableEq, Repr

/-- Function `createMarkerElement` from the source, reduced to its observable data
(the hover listeners are pure presentation and carry no state). -/
def createMarkerElement (poi : POI) : MarkerElement :=
  { backgroundColor := getCategoryColor poi.category,
    innerHTML := getCategoryIcon poi.category }

/-- The popup HTML built by `popup.setHTML` in `addMarkers`, with the
three interpolated fields.  Whitespace of the template is kept in the
fixed fragments. -/
def popupHtml (poi : POI) : String :=
  "<div class=\"p-3\"><h3 class=\"font-bold text-lg mb-1\">" ++
  (poi.name ++
  ("</h3><p class=\"text-sm text-gray-600 mb-2\">" ++
  (poi.description ++
  ("</p><span class=\"inline-block px-2 py-1 text-xs font-medium bg-blue-100 text-blue-800 rounded-full\">" ++
  (poi.category.str ++ "</span></div>")))))

/-- A marker handle as built inside `addMarkers`:
`new Marker(el).setLngLat(poi.coordinates).addTo(map)` plus the popup and
the click handler that opens the popup at `poi.coordinates`. -/
structure Marker where
  element : MarkerElement
  lngLat : Int × Int
  popupOffset : Nat
  popupHTML : String
  clickOpensPopupAt : Int × Int
deriving DecidableEq, Repr

/-- The marker built for one POI inside the `filteredPOIs.forEach` loop of
`addMarkers`. -/
def markerFor (poi : POI) : Marker :=
  { element := createMarkerElement poi,
    lngLat := poi.coordinates,
    popupOffset := 25,
    popupHTML := popupHtml poi,
    clickOpensPopupAt := poi.coordinates }

/-- The filtered POI list computed in `addMarkers`:
`selectedCategory === 'all' ? PARIS_POIS : PARIS_POIS.filter(...)`. -/
def filteredPOIs (c : POICategory) : List POI :=
  if c = .all then PARIS_POIS
  else PARIS_POIS.filter (fun poi => poi.category = c)

/-- Component instance state: the refs and `useState` hooks of `CityMap`.
`mapRef` is whether `mapRef.current` is non-null; `mapsCreated` counts how
many map instances have been constructed over the component's lifetime. -/
structure ComponentState where
  mapRef : Bool
  markers : List Marker
  mapError : Option String
  isLoading : Bool
  selectedCategory : POICategory
  mapsCreated : Nat
deriving DecidableEq, Repr

/-- State at mount: `mapRef.current = null`, `markersRef.current = []`,
`mapError = null`, `isLoading = true`, `selectedCategory = 'all'`. -/
def initialState : ComponentState :=
  { mapRef := false, markers := [], mapError := none, isLoading := true,
    selectedCategory := .all, mapsCreated := 0 }

/-- Function `addMarkers` from the source: guarded by `if (!mapRef.current) return`,
it removes every existing marker, clears the list, then pushes one new
marker per filtered POI. -/
def addMarkers (s : ComponentState) : ComponentState :=
  if s.mapRef = false then s
  else
    let cleared := { s with markers := [] }
    { cleared with
      markers := (filteredPOIs s.selectedCategory).map markerFor }

/-- The React effect on `[selectedCategory, isLoading]`: calls `addMarkers`
only when `mapRef.current && !isLoading`. -/
def markersEffect (s : ComponentState) : ComponentState :=
  if s.mapRef = true ∧ s.isLoading = false then addMarkers s else s

/-- A click on a filter chip: `setSelectedCategory(category.id)` followed by
the re-run of the markers effect (its dependency changed). -/
def setSelectedCategory (c : POICategory) (s : ComponentState) : ComponentState :=
  markersEffect { s with selectedCategory := c }

/-- The map's `load` handler: `setIsLoading(false)` then `addMarkers()`;
the markers effect then re-runs because `isLoading` changed. -/
def onLoad (s : ComponentState) : ComponentState :=
  markersEffect (addMarkers { s with isLoading := false })

/-- The map's `error` handler: `setMapError('Failed to load map')` and
`setIsLoading(false)`; the markers effect then re-runs because
`isLoading` changed. -/
def onError (s : ComponentState) : ComponentState :=
  markersEffect { s with mapError := some "Failed to load map",
                         isLoading := false }

/-- The mount `useEffect` that constructs the map.  `containerPresent` is
whether `containerRef.current` is non-null; `constructionThrows` is whether
`new maplibregl.Map(...)` throws.  On `!containerRef.current || mapRef.current`
it returns at once; on a construction exception `mapRef.current` is never
assigned and the catch block sets the error state (after which the markers
effect re-runs because `isLoading` changed). -/
def initEffect (containerPresent : Bool) (constructionThrows : Bool)
    (s : ComponentState) : ComponentState :=
  if containerPresent = false ∨ s.mapRef = true then s
  else if constructionThrows then
    markersEffect { s with mapError := some "Failed to initialize map",
                           isLoading := false }
  else
    { s with mapRef := true, mapsCreated := s.mapsCreated + 1 }

/-- The cleanup closure returned by the mount effect: remove every marker,
empty the list, and if a map exists remove it and null the ref.  It runs on
unmount whatever the current state is. -/
def cleanup (s : ComponentState) : ComponentState :=
  let s1 := { s with markers := [] }
  if s1.mapRef = true then { s1 with mapRef := false } else s1

/-- One rendered filter chip (icon, label, and the count badge shown only
on the selected chip). -/
structure Chip where
  category : POICategory
  label : String
  icon : String
  badge : Option Nat
deriving DecidableEq, Repr

/-- The filter-chip row rendered by the component: `CATEGORIES.map(...)`,
where only the selected chip carries the count badge
(`selectedCategory === 'all' ? PARIS_POIS.length : PARIS_POIS.filter(...).length`). -/
def renderChips (selectedCategory : POICategory) : List Chip :=
  CATEGORIES.map fun category =>
    { category := category.id,
      label := category.label,
      icon := category.icon,
      badge :=
        if selectedCategory = category.id then
          some (if selectedCategory = .all then PARIS_POIS.length
                else (PARIS_POIS.filter (fun poi => poi.category = category.id)).length)
        else none }

/-- What the component renders: the early-return error panel when
`mapError` is set, otherwise the map view with the chip bar. -/
inductive RenderView where
  | errorPanel (msg : String)
  | mapView (loading : Bool) (chips : List Chip)
deriving DecidableEq, Repr

/-- The component's render function, reduced to the branch structure of the
JSX: `if (mapError) return <error panel/>` else the map + chip bar. -/
def render (s : ComponentState) : RenderView :=
  match s.mapError with
  | some msg => .errorPanel msg
  | none => .mapView s.isLoading (renderChips s.selectedCategory)

/-- The marker count demanded by the spec: the number of POIs whose
category equals the filter, or the total POI count for `all`. -/
def countFor (f : POICategory) : Nat :=
  if f = .all then PARIS_POIS.length
  else (PARIS_POIS.filter (fun poi => poi.category = f)).length

/-- Decidable check that the first character list starts the second. -/
def isPrefixChars : List Char → List Char → Bool
  | [], _ => true
  | _ :: _, [] => false
  | c :: p, d :: l => c = d && isPrefixChars p l

/-- Decidable check that the first character list occurs contiguously
inside the second. -/
def containsChars (p : List Char) : List Char → Bool
  | [] => isPrefixChars p []
  | d :: l => isPrefixChars p (d :: l) || containsChars p l

/-- Decidable check that `pattern` occurs as a substring of `s`. -/
def strContains (s pattern : String) : Bool :=
  containsChars pattern.data s.data

/-- The POI with id `"1"` of the seeded dataset (the Eiffel Tower). -/
def eiffelPOI : POI :=
  { id := "1", name := "Eiffel Tower", category := .landmarks,
    coordinates := (22945, 488584),
    description := "Iconic iron lattice tower and symbol of Paris" }

/-- Invariant tying the number of constructed map instances to whether the
component currently holds one. -/
def mapInv (s : ComponentState) : Prop :=
  s.mapsCreated = (if s.mapRef = true then 1 else 0)

/-!
## Helper lemmas
-/

/-- Rebuilding markers never changes whether a map instance is held. -/
theorem addMarkers_mapRef (s : ComponentState) :
    (addMarkers s).mapRef = s.mapRef := by
  unfold addMarkers
  by_cases h : s.mapRef = false <;> simp [h]

/-- Rebuilding markers never changes the selected category. -/
theorem addMarkers_selectedCategory (s : ComponentState) :
    (addMarkers s).selectedCategory = s.selectedCategory := by
  unfold addMarkers
  by_cases h : s.mapRef = false <;> simp [h]

/-- When a map instance is held, the rebuilt marker list is exactly one
marker per filtered POI, in store order. -/
theorem addMarkers_markers (s : ComponentState) (h : s.mapRef = true) :
    (addMarkers s).markers = (filteredPOIs s.selectedCategory).map markerFor := by
  unfold addMarkers
  simp [h]

/-- For every filter, the per-POI marker list has no duplicates. -/
theorem filteredMarkers_nodup (f : POICategory) :
    ((filteredPOIs f).map markerFor).Nodup := by
  cases f <;> decide

/-- The marker list rebuilt for filter `f` has length `countFor f`. -/
theorem filteredMarkers_length (f : POICategory) :
    ((filteredPOIs f).map markerFor).length = countFor f := by
  cases f <;> decide

/-!
## Claims
-/

/-- C1: for every filter value `f` and any prior marker state, after
`addMarkers` returns (with a map instance held), the marker list is exactly
one marker per POI passing the filter, its length is the number of POIs of
category `f` (the total count for `all`), and it contains no duplicates —
no extra, missing, or duplicate markers. -/
theorem C1_rebuild_marker_count (f : POICategory) (s : ComponentState)
    (h : s.mapRef = true) :
    (addMarkers { s with selectedCategory := f }).markers
        = (filteredPOIs f).map markerFor
    ∧ (addMarkers { s with selectedCategory := f }).markers.length = countFor f
    ∧ (addMarkers { s with selectedCategory := f }).markers.Nodup := by
  have hm : (addMarkers { s with selectedCategory := f }).markers
      = (filteredPOIs f).map markerFor := addMarkers_markers _ h
  exact ⟨hm, hm ▸ filteredMarkers_length f, hm ▸ filteredMarkers_nodup f⟩

/-- Witness for C1 at filter `food` from a state holding a map and three
stale markers. -/
theorem C1_rebuild_marker_count_witness :
    ({ initialState with
         mapRef := true,
         markers := [markerFor eiffelPOI, markerFor eiffelPOI] }
       : ComponentState).mapRef = true
    ∧ (addMarkers { ({ initialState with
         mapRef := true,
         markers := [markerFor eiffelPOI, markerFor eiffelPOI] }
       : ComponentState) with selectedCategory := .food }).markers.length
        = countFor .food :=
  ⟨rfl, (C1_rebuild_marker_count .food
    { initialState with
        mapRef := true,
        markers := [markerFor eiffelPOI, markerFor eiffelPOI] }
    rfl).2.1⟩

/-- C2: after `rebuild(f2)` following `rebuild(f1)` with `f1 ≠ f2`, the
marker set is exactly the markers of the POIs passing `f2`: every marker
present comes from a POI passing `f2`, and no marker of a POI excluded by
`f2` remains. -/
theorem C2_no_stale_markers (f1 f2 : POICategory) (s : ComponentState)
    (hmap : s.mapRef = true) (hne : f1 ≠ f2) :
    (addMarkers { (addMarkers { s with selectedCategory := f1 }) with
        selectedCategory := f2 }).markers = (filteredPOIs f2).map markerFor
    ∧ (∀ m ∈ (addMarkers { (addMarkers { s with selectedCategory := f1 }) with
          selectedCategory := f2 }).markers,
        ∃ poi ∈ filteredPOIs f2, m = markerFor poi)
    ∧ (∀ poi ∈ PARIS_POIS, f2 ≠ .all → poi.category ≠ f2 →
        markerFor poi ∉ (addMarkers { (addMarkers { s with selectedCategory := f1 })
          with selectedCategory := f2 }).markers) := by
  have h1 : (addMarkers { s with selectedCategory := f1 }).mapRef = true := by
    rw [addMarkers_mapRef]; exact hmap
  have hm : (addMarkers { (addMarkers { s with selectedCategory := f1 }) with
      selectedCategory := f2 }).markers = (filteredPOIs f2).map markerFor :=
    addMarkers_markers _ h1
  refine ⟨hm, ?_, ?_⟩
  · intro m hmem
    rw [hm] at hmem
    obtain ⟨poi, hpoi, rfl⟩ := List.mem_map.1 hmem
    exact ⟨poi, hpoi, rfl⟩
  · intro poi hpoi hall hcat
    rw [hm]
    revert hpoi hall hcat
    cases f2 <;> revert poi <;> decide

/-- Witness for C2: switching from `all` to `food` from a loaded state. -/
theorem C2_no_stale_markers_witness :
    ({ initialState with mapRef := true } : ComponentState).mapRef = true
    ∧ POICategory.all ≠ POICategory.food
    ∧ (addMarkers { (addMarkers { { initialState with mapRef := true } with
          selectedCategory := .all }) with selectedCategory := .food }).markers
        = (filteredPOIs .food).map markerFor :=
  ⟨rfl, by decide,
    (C2_no_stale_markers .all .food { initialState with mapRef := true }
      rfl (by decide)).1⟩

/-- C3 counterexample: when the map's `error` event fires after successful
construction, the error panel is shown but the marker effect still runs
(`isLoading` flips to `false` while `mapRef.current` is set), creating all
8 markers — not zero — and a subsequent filter change also creates markers. -/
theorem C3_error_event_creates_markers :
    render (onError (initEffect true false initialState))
        = .errorPanel "Failed to load map"
    ∧ (onError (initEffect true false initialState)).markers ≠ []
    ∧ (onError (initEffect true false initialState)).markers.length = 8
    ∧ (setSelectedCategory .food
        (onError (initEffect true false initialState))).markers.length = 2 := by
  refine ⟨rfl, ?_, ?_, ?_⟩ <;> decide

/-- C3 (amended): if map construction throws, the UI shows an error panel,
zero markers are created, and subsequent filter changes create none; but if
the error is reported through the map's `error` event after construction,
the UI shows the error panel while the marker effect still rebuilds the
full marker set for the current filter. -/
theorem C3_error_paths :
    render (initEffect true true initialState)
        = .errorPanel "Failed to initialize map"
    ∧ (initEffect true true initialState).markers = []
    ∧ (∀ c : POICategory,
        (setSelectedCategory c (initEffect true true initialState)).markers = [])
    ∧ render (onError (initEffect true false initialState))
        = .errorPanel "Failed to load map"
    ∧ (onError (initEffect true false initialState)).markers.length = 8
    ∧ (∀ c : POICategory,
        (setSelectedCategory c (onError (initEffect true false initialState))).markers.length
          = countFor c) := by
  refine ⟨rfl, rfl, ?_, rfl, by decide, ?_⟩ <;> intro c <;> cases c <;> decide

/-- C4: every rebuild invocation before the Map Host is loaded is a silent
no-op: `addMarkers` itself returns the state unchanged when no map instance
exists, and the effect that triggers rebuilds returns the state unchanged
while the map is still loading. -/
theorem C4_rebuild_before_loaded_noop (s : ComponentState) :
    (s.mapRef = false → addMarkers s = s)
    ∧ (s.isLoading = true → markersEffect s = s) := by
  constructor
  · intro h
    unfold addMarkers
    simp [h]
  · intro h
    unfold markersEffect
    simp [h]

/-- Witness for C4 at the mount state (no map, still loading). -/
theorem C4_rebuild_before_loaded_noop_witness :
    initialState.mapRef = false ∧ addMarkers initialState = initialState
    ∧ initialState.isLoading = true ∧ markersEffect initialState = initialState :=
  ⟨rfl, (C4_rebuild_before_loaded_noop initialState).1 rfl,
   rfl, (C4_rebuild_before_loaded_noop initialState).2 rfl⟩

/-- C5: rebuilding twice in a row with the same filter yields the same
marker list (hence the same count) as rebuilding once — no duplication. -/
theorem C5_rebuild_idempotent (f : POICategory) (s : ComponentState)
    (h : s.mapRef = true) :
    (addMarkers (addMarkers { s with selectedCategory := f })).markers
      = (addMarkers { s with selectedCategory := f }).markers
    ∧ (addMarkers (addMarkers { s with selectedCategory := f })).markers.length
      = (addMarkers { s with selectedCategory := f }).markers.length := by
  have h2 : ({ s with selectedCategory := f } : ComponentState).mapRef = true := h
  have h1 : (addMarkers { s with selectedCategory := f }).mapRef = true :=
    (addMarkers_mapRef _).trans h2
  have ha : (addMarkers { s with selectedCategory := f }).markers
      = (filteredPOIs f).map markerFor := addMarkers_markers _ h2
  have hb : (addMarkers (addMarkers { s with selectedCategory := f })).markers
      = (filteredPOIs f).map markerFor := by
    rw [addMarkers_markers _ h1, addMarkers_selectedCategory]
  rw [ha, hb]
  exact ⟨rfl, rfl⟩

/-- Witness for C5 at filter `food` from a state holding a map. -/
theorem C5_rebuild_idempotent_witness :
    ({ initialState with mapRef := true } : ComponentState).mapRef = true
    ∧ (addMarkers (addMarkers { { initialState with mapRef := true } with
          selectedCategory := .food })).markers.length
      = (addMarkers { { initialState with mapRef := true } with
          selectedCategory := .food }).markers.length :=
  ⟨rfl, (C5_rebuild_idempotent .food { initialState with mapRef := true } rfl).2⟩

/-- C6: on the seeded 8-POI dataset, selecting the `food` filter from the
loaded state produces exactly 2 markers, at the coordinates of the POIs
with ids "5" and "8". -/
theorem C6_food_filter_two_markers :
    (setSelectedCategory .food (onLoad (initEffect true false initialState))).markers.length = 2
    ∧ (setSelectedCategory .food
        (onLoad (initEffect true false initialState))).markers.map (fun m => m.lngLat)
      = (PARIS_POIS.filter (fun poi => poi.id = "5" ∨ poi.id = "8")).map
          (fun poi => poi.coordinates)
    ∧ (setSelectedCategory .food
        (onLoad (initEffect true false initialState))).markers.map (fun m => m.lngLat)
      = [(23387, 488532), (23590, 488575)] := by
  refine ⟨?_, ?_, ?_⟩ <;> decide

/-- C7: the Filter Bar renders one chip per category in the fixed order
all, landmarks, food, art, history, culture; only the selected chip carries
a badge, whose value is the number of POIs of that category (the total for
`all`); with filter `all` the badge reads 8. -/
theorem C7_filter_bar (f : POICategory) :
    (renderChips f).map (fun chip => chip.category)
        = [.all, .landmarks, .food, .art, .history, .culture]
    ∧ (renderChips f).map (fun chip => chip.badge)
        = CATEGORIES.map (fun c => if c.id = f then some (countFor f) else none)
    ∧ (renderChips .all).map (fun chip => chip.badge)
        = [some 8, none, none, none, none, none] := by
  cases f <;> exact ⟨by decide, by decide, by decide⟩

/-- C8: for every POI visible under any filter, its marker's click handler
opens the popup anchored at that POI's coordinates, and the popup HTML
contains the POI's name, description, and category label; in particular the
marker of POI id "1" yields a popup containing "Eiffel Tower" and
"landmarks". -/
theorem C8_marker_click_popup (f : POICategory) :
    (∀ poi ∈ filteredPOIs f,
        (markerFor poi).clickOpensPopupAt = poi.coordinates
        ∧ strContains (markerFor poi).popupHTML poi.name = true
        ∧ strContains (markerFor poi).popupHTML poi.description = true
        ∧ strContains (markerFor poi).popupHTML poi.category.str = true)
    ∧ (PARIS_POIS.filter (fun poi => poi.id = "1")).length = 1
    ∧ ((PARIS_POIS.filter (fun poi => poi.id = "1")).all fun poi =>
          strContains (markerFor poi).popupHTML "Eiffel Tower"
          && strContains (markerFor poi).popupHTML "landmarks") = true := by
  refine ⟨?_, by decide, by decide⟩
  intro poi
  revert poi
  cases f <;> decide

/-- Witness for C8: the Eiffel Tower POI under the `all` filter. -/
theorem C8_marker_click_popup_witness :
    eiffelPOI ∈ filteredPOIs .all
    ∧ (markerFor eiffelPOI).clickOpensPopupAt = eiffelPOI.coordinates
    ∧ strContains (markerFor eiffelPOI).popupHTML "Eiffel Tower" = true :=
  ⟨by decide,
   ((C8_marker_click_popup .all).1 eiffelPOI (by decide)).1,
   by decide⟩

/-- C9: the teardown closure empties the marker list and clears the map
reference in every state — whatever the values of `mapError`, `isLoading`,
or the held markers, i.e. in the initializing, loaded and error states
alike. -/
theorem C9_cleanup_unconditional (s : ComponentState) :
    (cleanup s).markers = [] ∧ (cleanup s).mapRef = false := by
  rcases s with ⟨mr, mk, me, il, sc, n⟩
  cases mr <;> simp [cleanup]

/-- C10: the initialization effect is a no-op whenever a map instance is
already held or the rendering container is absent, and any sequence of
initialization-effect runs from the mount state constructs at most one map
instance. -/
theorem C10_single_map_instance :
    (∀ (c t : Bool) (s : ComponentState), s.mapRef = true → initEffect c t s = s)
    ∧ (∀ (t : Bool) (s : ComponentState), initEffect false t s = s)
    ∧ (∀ calls : List (Bool × Bool),
        (calls.foldl (fun s p => initEffect p.1 p.2 s) initialState).mapsCreated ≤ 1) := by
  have hnoop : ∀ (c t : Bool) (s : ComponentState), s.mapRef = true →
      initEffect c t s = s := by
    intro c t s h
    unfold initEffect
    simp [h]
  have hcont : ∀ (t : Bool) (s : ComponentState), initEffect false t s = s := by
    intro t s
    unfold initEffect
    simp
  refine ⟨hnoop, hcont, ?_⟩
  have hstep : ∀ (c t : Bool) (s : ComponentState),
      mapInv s → mapInv (initEffect c t s) := by
    intro c t s h
    unfold mapInv at h ⊢
    unfold initEffect markersEffect addMarkers
    rcases s with ⟨mr, mk, me, il, sc, n⟩
    cases mr <;> cases c <;> cases t <;> simp_all
  have hfold : ∀ (calls : List (Bool × Bool)) (s : ComponentState), mapInv s →
      mapInv (calls.foldl (fun s p => initEffect p.1 p.2 s) s) := by
    intro calls
    induction calls with
    | nil => intro s h; exact h
    | cons p rest ih =>
        intro s h
        exact ih _ (hstep p.1 p.2 s h)
  intro calls
  have h := hfold calls initialState (by unfold mapInv; decide)
  unfold mapInv at h
  rw [h]
  cases (calls.foldl (fun s p => initEffect p.1 p.2 s) initialState).mapRef <;> simp

/-- Witness for C10: the effect leaves a state that already holds a map
unchanged. -/
theorem C10_single_map_instance_witness :
    ({ initialState with mapRef := true } : ComponentState).mapRef = true
    ∧ initEffect true false { initialState with mapRef := true }
        = { initialState with mapRef := true } :=
  ⟨rfl, C10_single_map_instance.1 true false _ rfl⟩

end CityMap
